import Mathlib

/-!
Verification development for the DeFi Yields MCP HTTP server
(src/http_server.py).

The server exposes one backend capability (fetching and filtering
yield-pool records) through three protocol surfaces: a JSON-RPC style
MCP endpoint (POST /), plain REST endpoints (/pools, /analyze, /health,
/refresh), and an SSE streaming endpoint (/pools/stream).

The shallow embedding below models JSON values as the inductive `JVal`
(JSON numbers are represented by rationals: the claims under study never
depend on binary floating-point rounding), Python dictionaries decoded
from JSON as association lists, and the two external collaborators
`get_yield_pools` / `analyze_yields` (imported from
src.defi_yields_mcp, which is not part of this repository's src tree)
as abstract functions returning `Except String _` — `Except.error`
standing for a raised Python exception carrying `str(e)`.
-/

/-- JSON value, as decoded by FastAPI from a request body or produced by
a handler.  Numbers are modelled as rationals. -/
inductive JVal where
  | null
  | bool (b : Bool)
  | num (q : Rat)
  | str (s : String)
  | arr (xs : List JVal)
  | obj (fields : List (String × JVal))

/-- Python dict.get with an explicit default: first binding of the key,
or the default when the key is absent. -/
def dictGetD (fs : List (String × JVal)) (k : String) (d : JVal) : JVal :=
  match fs.lookup k with
  | some v => v
  | none => d

/-- Python dict.get with one argument: the value bound to the key, or
None (JVal.null) when the key is absent. -/
def dictGet (fs : List (String × JVal)) (k : String) : JVal :=
  dictGetD fs k JVal.null

/-- The apostrophe character, used to build Python repr/error strings. -/
def pyQuote : String := String.singleton (Char.ofNat 39)

/-- Wrap a string in apostrophes, as Python repr does for str values. -/
def pyq (s : String) : String := pyQuote ++ s ++ pyQuote

/-- Name CPython gives to the runtime type of a JSON-decoded value,
as it appears in AttributeError messages. -/
def JVal.pyType : JVal → String
  | .null => "NoneType"
  | .bool _ => "bool"
  | .num _ => "int"
  | .str _ => "str"
  | .arr _ => "list"
  | .obj _ => "dict"

/-- Render a rational the way CPython str() renders the JSON-decoded
number it stands for: integers without a fractional part.  (Non-integer
rationals stand in for floats; their exact CPython rendering is not
load-bearing for any claim.) -/
def pyNum (q : Rat) : String :=
  if q.den = 1 then toString q.num else toString q

mutual
/-- CPython repr() of a JSON-decoded value (used inside containers and
by str() on containers). -/
def JVal.pyRepr : JVal → String
  | .null => "None"
  | .bool b => if b then "True" else "False"
  | .num q => pyNum q
  | .str s => pyq s
  | .arr xs => "[" ++ pyReprList xs ++ "]"
  | .obj fs => "\x7b" ++ pyReprFields fs ++ "\x7d"

/-- Comma-separated repr of list elements. -/
def pyReprList : List JVal → String
  | [] => ""
  | [x] => x.pyRepr
  | x :: y :: xs => x.pyRepr ++ ", " ++ pyReprList (y :: xs)

/-- Comma-separated repr of dict items. -/
def pyReprFields : List (String × JVal) → String
  | [] => ""
  | [(k, v)] => pyq k ++ ": " ++ v.pyRepr
  | (k, v) :: f :: fs => pyq k ++ ": " ++ v.pyRepr ++ ", " ++ pyReprFields (f :: fs)
end

/-- CPython str() of a JSON-decoded value, as interpolated by an
f-string: strings appear bare, everything else as its repr. -/
def JVal.pyStr : JVal → String
  | .str s => s
  | v => v.pyRepr

/-- Message of the AttributeError CPython raises when .get is called on
a non-dict value. -/
def noGetAttrMsg (v : JVal) : String :=
  pyq v.pyType ++ " object has no attribute " ++ pyq "get"

/-- Python value.get(key, default): succeeds on dicts, raises
AttributeError on anything else. -/
def JVal.pyGetD (v : JVal) (k : String) (d : JVal) : Except String JVal :=
  match v with
  | .obj fs => Except.ok (dictGetD fs k d)
  | _ => Except.error (noGetAttrMsg v)

/-- Python value.get(key) with default None. -/
def JVal.pyGet (v : JVal) (k : String) : Except String JVal :=
  v.pyGetD k JVal.null

/-- Hexadecimal digit character (lowercase), for \u escapes. -/
def hexDigit (n : Nat) : Char :=
  Char.ofNat (if n < 10 then 48 + n else 87 + n)

/-- Four-digit lowercase hexadecimal rendering of a code point. -/
def hex4 (n : Nat) : String :=
  String.mk [hexDigit (n / 4096 % 16), hexDigit (n / 256 % 16),
             hexDigit (n / 16 % 16), hexDigit (n % 16)]

/-- Escape one character as CPython json.dumps (ensure_ascii=True) does.
Astral code points (surrogate pairs) are rendered as a single \u escape
here; no claim depends on that corner. -/
def jsonEscapeChar (c : Char) : String :=
  let n := c.toNat
  if n = 34 then "\\\""
  else if n = 92 then "\\\\"
  else if n = 10 then "\\n"
  else if n = 9 then "\\t"
  else if n = 13 then "\\r"
  else if n = 8 then "\\b"
  else if n = 12 then "\\f"
  else if n < 32 ∨ 126 < n then "\\u" ++ hex4 n
  else String.singleton c

/-- Escape a string for a JSON string literal. -/
def jsonEscape (s : String) : String :=
  String.join (s.data.map jsonEscapeChar)

mutual
/-- CPython json.dumps with default (compact) separators. -/
def JVal.dumps : JVal → String
  | .null => "null"
  | .bool b => if b then "true" else "false"
  | .num q => pyNum q
  | .str s => "\"" ++ jsonEscape s ++ "\""
  | .arr xs => "[" ++ dumpsList xs ++ "]"
  | .obj fs => "\x7b" ++ dumpsFields fs ++ "\x7d"

/-- Elements of a JSON array, separated by comma-space. -/
def dumpsList : List JVal → String
  | [] => ""
  | [x] => x.dumps
  | x :: y :: xs => x.dumps ++ ", " ++ dumpsList (y :: xs)

/-- Items of a JSON object, separated by comma-space. -/
def dumpsFields : List (String × JVal) → String
  | [] => ""
  | [(k, v)] => "\"" ++ jsonEscape k ++ "\": " ++ v.dumps
  | (k, v) :: f :: fs =>
      "\"" ++ jsonEscape k ++ "\": " ++ v.dumps ++ ", " ++ dumpsFields (f :: fs)
end

/-- A run of space characters, for indented JSON output. -/
def spaces (n : Nat) : String :=
  String.mk (List.replicate n (Char.ofNat 32))

mutual
/-- CPython json.dumps with indent=2: containers open on their own line,
children indented two further columns, closing bracket back at the
opening level. -/
def JVal.dumpsInd (level : Nat) : JVal → String
  | .arr [] => "[]"
  | .arr (x :: xs) =>
      "[\n" ++ dumpsIndList (level + 2) (x :: xs) ++ "\n" ++ spaces level ++ "]"
  | .obj [] => "\x7b\x7d"
  | .obj (f :: fs) =>
      "\x7b\n" ++ dumpsIndFields (level + 2) (f :: fs) ++ "\n" ++ spaces level ++ "\x7d"
  | v => v.dumps

/-- Indented array elements, separated by comma-newline. -/
def dumpsIndList (level : Nat) : List JVal → String
  | [] => ""
  | [x] => spaces level ++ x.dumpsInd level
  | x :: y :: xs =>
      spaces level ++ x.dumpsInd level ++ ",\n" ++ dumpsIndList level (y :: xs)

/-- Indented object items, separated by comma-newline. -/
def dumpsIndFields (level : Nat) : List (String × JVal) → String
  | [] => ""
  | [(k, v)] => spaces level ++ "\"" ++ jsonEscape k ++ "\": " ++ v.dumpsInd level
  | (k, v) :: f :: fs =>
      spaces level ++ "\"" ++ jsonEscape k ++ "\": " ++ v.dumpsInd level ++ ",\n" ++
        dumpsIndFields level (f :: fs)
end

/-- json.dumps(v, indent=2), as used for the tools/call content text. -/
def JVal.dumps2 (v : JVal) : String := v.dumpsInd 0

/-!
External collaborators.  http_server.py imports get_yield_pools and
analyze_yields from src.defi_yields_mcp, a module outside this
repository's source tree.  They are modelled as abstract functions of
the chain/project filter values handed to them (JVal.null standing for
Python None); Except.error e stands for a raised exception with
str(exception) = e.  The ContextLogger capability each call site passes
is modelled separately (see MockContext below), since the abstract
collaborators are pure.
-/

/-- Abstract external collaborators of the HTTP layer. -/
structure Providers where
  get_yield_pools : JVal → JVal → Except String (List JVal)
  analyze_yields : JVal → JVal → Except String String

/-- Outcome field of a JSON-RPC response: exactly one of result or
error \x7bcode, message\x7d. -/
inductive RPCOutcome where
  | result (r : JVal)
  | rpcError (code : Int) (message : String)

/-- JSON-RPC response envelope returned by the MCP endpoint. -/
structure RPCResponse where
  jsonrpc : String
  id : JVal
  outcome : RPCOutcome

/-- Static result of the MCP initialization handshake
(http_server.py lines 141-151). -/
def handshakeResult : JVal :=
  JVal.obj
    [("protocolVersion", JVal.str "2025-03-26"),
     ("capabilities", JVal.obj [("tools", JVal.obj []), ("prompts", JVal.obj [])]),
     ("serverInfo", JVal.obj
        [("name", JVal.str "DeFi Yields MCP Server"),
         ("version", JVal.str "0.1.0")])]

/-- Static result of tools/list (http_server.py lines 155-175). -/
def toolsListResult : JVal :=
  JVal.obj
    [("tools", JVal.arr
       [JVal.obj
          [("name", JVal.str "get_yield_pools"),
           ("description", JVal.str "Fetch DeFi yield pools from the yields.llama.fi API, optionally filtering by chain or project"),
           ("inputSchema", JVal.obj
              [("type", JVal.str "object"),
               ("properties", JVal.obj
                  [("chain", JVal.obj
                     [("type", JVal.str "string"),
                      ("description", JVal.str ("Filter for blockchain (e.g., " ++ pyq "Ethereum" ++ ", " ++ pyq "Solana" ++ ")"))]),
                   ("project", JVal.obj
                     [("type", JVal.str "string"),
                      ("description", JVal.str ("Filter for project name (e.g., " ++ pyq "lido" ++ ", " ++ pyq "aave-v3" ++ ")"))])])])]])]

/-- Result of a successful tools/call of get_yield_pools: one text
content block holding json.dumps(pools, indent=2)
(http_server.py lines 196-203). -/
def toolsCallResult (pools : List JVal) : JVal :=
  JVal.obj
    [("content", JVal.arr
       [JVal.obj
          [("type", JVal.str "text"),
           ("text", JVal.str ((JVal.arr pools).dumps2))]])]

/-- Static result of prompts/list (http_server.py lines 209-228). -/
def promptsListResult : JVal :=
  JVal.obj
    [("prompts", JVal.arr
       [JVal.obj
          [("name", JVal.str "analyze_yields"),
           ("description", JVal.str "Generate a prompt to analyze DeFi yield pools, optionally filtered by chain or project"),
           ("arguments", JVal.arr
              [JVal.obj
                 [("name", JVal.str "chain"),
                  ("description", JVal.str "Optional blockchain filter"),
                  ("required", JVal.bool false)],
               JVal.obj
                 [("name", JVal.str "project"),
                  ("description", JVal.str "Optional project filter"),
                  ("required", JVal.bool false)]])]])]

/-- Result of a successful prompts/get of analyze_yields
(http_server.py lines 241-252). -/
def promptsGetResult (prompt_text : String) : JVal :=
  JVal.obj
    [("description", JVal.str prompt_text),
     ("messages", JVal.arr
        [JVal.obj
           [("role", JVal.str "user"),
            ("content", JVal.obj
               [("type", JVal.str "text"),
                ("text", JVal.str prompt_text)])]])]

/-- Body of the try block of mcp_endpoint (http_server.py lines
131-256): the elif chain on the method name, with every Python
expression that can raise modelled in the Except monad.  The source
compares the method value against five string literals with Python ==,
which is False for every non-string value, so non-strings fall through
to the final else; the same holds for the tool and prompt names, which
is rendered here by matching on the string constructor. -/
def mcp_dispatch (prov : Providers) (request : List (String × JVal)) :
    Except String JVal :=
  let params := dictGetD request "params" (JVal.obj [])
  match dictGet request "method" with
  | JVal.str s =>
      if s = "initialize" then do
        -- params.get("clientInfo", \x7b\x7d) then client_info.get(...) for the
        -- logger.info call: both raise AttributeError on non-dict values.
        let client_info ← params.pyGetD "clientInfo" (JVal.obj [])
        let _ ← client_info.pyGetD "name" (JVal.str "unknown")
        let _ ← client_info.pyGetD "version" (JVal.str "unknown")
        pure handshakeResult
      else if s = "tools/list" then
        pure toolsListResult
      else if s = "tools/call" then do
        let tool_name ← params.pyGet "name"
        let arguments ← params.pyGetD "arguments" (JVal.obj [])
        match tool_name with
        | JVal.str t =>
            if t = "get_yield_pools" then do
              let chain ← arguments.pyGet "chain"
              let project ← arguments.pyGet "project"
              let pools ← prov.get_yield_pools chain project
              pure (toolsCallResult pools)
            else Except.error ("Unknown tool: " ++ t)
        | v => Except.error ("Unknown tool: " ++ v.pyStr)
      else if s = "prompts/list" then
        pure promptsListResult
      else if s = "prompts/get" then do
        let prompt_name ← params.pyGet "name"
        let arguments ← params.pyGetD "arguments" (JVal.obj [])
        match prompt_name with
        | JVal.str p =>
            if p = "analyze_yields" then do
              let chain ← arguments.pyGet "chain"
              let project ← arguments.pyGet "project"
              let prompt_text ← prov.analyze_yields chain project
              pure (promptsGetResult prompt_text)
            else Except.error ("Unknown prompt: " ++ p)
        | v => Except.error ("Unknown prompt: " ++ v.pyStr)
      else Except.error ("Unknown method: " ++ s)
  | v => Except.error ("Unknown method: " ++ v.pyStr)

/-- POST / handler (http_server.py lines 125-273).  FastAPI guarantees
the body is a JSON object (request: Dict[str, Any]), modelled as an
association list.  The success path returns the result wrapped with
request_id = request.get("id") bound before the try body runs; the
except path re-reads request.get("id") — both equal dictGet request
"id" since the dict is not mutated. -/
def mcp_endpoint (prov : Providers) (request : List (String × JVal)) :
    RPCResponse :=
  match mcp_dispatch prov request with
  | Except.ok result =>
      { jsonrpc := "2.0", id := dictGet request "id", outcome := RPCOutcome.result result }
  | Except.error e =>
      { jsonrpc := "2.0", id := dictGet request "id", outcome := RPCOutcome.rpcError (-1) e }

/-!
SSE streaming endpoint (/pools/stream), http_server.py lines 316-369.
-/

/-- One event of the SSE stream, before wire framing.  Field names match
the JSON keys of the chunk dicts built by generate_stream. -/
inductive SSEEvent where
  | fetching (message : String)
  | data (index : Nat) (total : Nat) (pool : JVal)
  | completed (total : Nat)
  | error (error : String)

/-- JSON payload of one stream event (the chunk dicts of
http_server.py lines 333-359). -/
def SSEEvent.toJVal : SSEEvent → JVal
  | .fetching m =>
      JVal.obj [("status", JVal.str "fetching"), ("message", JVal.str m)]
  | .data i t p =>
      JVal.obj [("status", JVal.str "data"), ("index", JVal.num i),
                ("total", JVal.num t), ("pool", p)]
  | .completed t =>
      JVal.obj [("status", JVal.str "completed"), ("total", JVal.num t)]
  | .error e =>
      JVal.obj [("status", JVal.str "error"), ("error", JVal.str e)]

/-- Wire framing of one event: an SSE data record. -/
def sseFrame (payload : String) : String := "data: " ++ payload ++ "\n\n"

/-- The data-event loop: for i, pool in enumerate(pools), each chunk
carrying its zero-based index and the fixed total. -/
def dataEvents (total : Nat) : Nat → List JVal → List SSEEvent
  | _, [] => []
  | i, p :: ps => SSEEvent.data i total p :: dataEvents total (i + 1) ps

/-- Event sequence produced by generate_stream (http_server.py lines
323-359) as a function of the fetch outcome: the fetching event is
yielded first inside the try, then on success one data event per pool
followed by the completion event; a raising fetch reaches the except
clause, which yields a single error event. -/
def generate_stream (fetch : Except String (List JVal)) : List SSEEvent :=
  SSEEvent.fetching "Fetching yield pools..." ::
    match fetch with
    | Except.ok pools =>
        dataEvents pools.length 0 pools ++ [SSEEvent.completed pools.length]
    | Except.error e => [SSEEvent.error e]

/-- Byte stream of GET /pools/stream: each event framed as a single SSE
record holding its compact json.dumps. -/
def get_pools_stream_body (fetch : Except String (List JVal)) : List String :=
  (generate_stream fetch).map (fun e => sseFrame e.toJVal.dumps)

/-!
REST handlers (/pools, /analyze), http_server.py lines 276-390.
-/

/-- Request model of POST /pools (class YieldPoolRequest, lines 33-35). -/
structure YieldPoolRequest where
  chain : Option String
  project : Option String

/-- Request model of POST /analyze (class AnalysisRequest, lines 46-48). -/
structure AnalysisRequest where
  chain : Option String
  project : Option String

/-- A validated YieldPool record (class YieldPool, lines 37-44). -/
structure YieldPoolRecord where
  chain : String
  pool : String
  project : String
  tvlUsd : Rat
  apy : Rat
  apyMean30d : Rat
  predictions : List (String × JVal)

/-- JSON serialization of a validated record, fields in declaration
order, as FastAPI renders the response_model. -/
def YieldPoolRecord.toJVal (r : YieldPoolRecord) : JVal :=
  JVal.obj
    [("chain", JVal.str r.chain), ("pool", JVal.str r.pool),
     ("project", JVal.str r.project), ("tvlUsd", JVal.num r.tvlUsd),
     ("apy", JVal.num r.apy), ("apyMean30d", JVal.num r.apyMean30d),
     ("predictions", JVal.obj r.predictions)]

/-- YieldPool(**pool): pydantic validation of one provider dict.  The
seven declared fields are extracted (extra keys are ignored, pydantic's
default); a missing or wrongly-typed field raises a validation error.
The exact pydantic message text is not load-bearing for any claim. -/
def validateYieldPool (v : JVal) : Except String YieldPoolRecord :=
  match v with
  | JVal.obj fs =>
      match dictGet fs "chain", dictGet fs "pool", dictGet fs "project",
            dictGet fs "tvlUsd", dictGet fs "apy", dictGet fs "apyMean30d",
            dictGet fs "predictions" with
      | JVal.str chain, JVal.str pool, JVal.str project, JVal.num tvl,
        JVal.num apy, JVal.num apyM, JVal.obj preds =>
          Except.ok ⟨chain, pool, project, tvl, apy, apyM, preds⟩
      | _, _, _, _, _, _, _ => Except.error "validation error for YieldPool"
  | _ => Except.error "validation error for YieldPool"

/-- The list comprehension [YieldPool(**pool) for pool in pools]:
left to right, the first failing element raises. -/
def validatePools : List JVal → Except String (List YieldPoolRecord)
  | [] => Except.ok []
  | p :: ps => do
      let r ← validateYieldPool p
      let rs ← validatePools ps
      pure (r :: rs)

/-- None / str filter value as handed to the collaborators by the REST
handlers. -/
def optToJVal : Option String → JVal
  | none => JVal.null
  | some s => JVal.str s

/-- HTTP outcome of a REST handler: a JSON body with status 200, or an
HTTPException with a status code and detail message. -/
inductive RestResponse where
  | ok (body : JVal)
  | httpError (status : Nat) (detail : String)

/-- Try body of the POST /pools handler (lines 284-299): fetch, then
validate each pool dict against the YieldPool model. -/
def get_pools_try (prov : Providers) (request : YieldPoolRequest) :
    Except String (List YieldPoolRecord) := do
  let pools ← prov.get_yield_pools (optToJVal request.chain) (optToJVal request.project)
  validatePools pools

/-- POST /pools handler (lines 276-303): 200 with the validated list on
success, HTTPException(500, str(e)) when the try body raises. -/
def get_pools (prov : Providers) (request : YieldPoolRequest) : RestResponse :=
  match get_pools_try prov request with
  | Except.ok records =>
      RestResponse.ok (JVal.arr (records.map YieldPoolRecord.toJVal))
  | Except.error e => RestResponse.httpError 500 e

/-- GET /pools handler (lines 306-313): builds a YieldPoolRequest from
the query parameters and delegates to the POST handler. -/
def get_pools_get (prov : Providers) (chain project : Option String) :
    RestResponse :=
  get_pools prov { chain := chain, project := project }

/-- POST /analyze handler (lines 372-380): \x7b"prompt": text\x7d on success,
HTTPException(500, str(e)) when analyze_yields raises. -/
def get_analysis (prov : Providers) (request : AnalysisRequest) : RestResponse :=
  match prov.analyze_yields (optToJVal request.chain) (optToJVal request.project) with
  | Except.ok analysis_prompt =>
      RestResponse.ok (JVal.obj [("prompt", JVal.str analysis_prompt)])
  | Except.error e => RestResponse.httpError 500 e

/-- GET /analyze handler (lines 383-390): builds an AnalysisRequest from
the query parameters and delegates to the POST handler. -/
def get_analysis_get (prov : Providers) (chain project : Option String) :
    RestResponse :=
  get_analysis prov { chain := chain, project := project }

/-!
Health, refresh, and the per-site ContextLogger capabilities.
-/

/-- Response model of GET /health (class HealthResponse, lines 50-53).
Wall-clock instants are modelled as rationals. -/
structure HealthResponse where
  status : String
  version : String
  uptime : Rat

/-- GET /health handler (lines 98-107): uptime is the current wall-clock
time minus the startup timestamp captured once in the lifespan hook
(lines 58-63). -/
def health_check (startup_time now : Rat) : HealthResponse :=
  { status := "healthy", version := "0.1.0", uptime := now - startup_time }

/-- A log record emitted through the module logger. -/
inductive LogEntry where
  | info (message : String)
  | error (message : String)

/-- Body of the detached refresh task (lines 396-405): an unfiltered
fetch whose outcome is only logged. -/
def refresh_task (fetch : Except String (List JVal)) : List LogEntry :=
  match fetch with
  | Except.ok _ => [LogEntry.info "Background data refresh completed"]
  | Except.error e => [LogEntry.error ("Background data refresh failed: " ++ e)]

/-- POST /refresh handler (lines 393-408): schedules the detached task
and immediately returns the acknowledgement body.  The pair holds the
HTTP response body (always returned with success status) and the log
records the detached task will produce for the given fetch outcome. -/
def refresh_data (prov : Providers) : JVal × List LogEntry :=
  (JVal.obj
     [("status", JVal.str "refresh_started"),
      ("message", JVal.str "Background refresh initiated")],
   refresh_task (prov.get_yield_pools JVal.null JVal.null))

/-- The logger capability a call site passes to a collaborator: which of
the two methods its inline MockContext class defines, and what each one
logs.  A missing method means calling it raises AttributeError. -/
structure MockContext where
  info : Option (String → LogEntry)
  error : Option (String → LogEntry)

/-- MockContext of the MCP tools/call branch (lines 184-188): both
methods, logging with the MCP Context prefix. -/
def mcpToolContext : MockContext :=
  { info := some (fun m => LogEntry.info ("MCP Context: " ++ m)),
    error := some (fun m => LogEntry.error ("MCP Context: " ++ m)) }

/-- MockContext of the POST /pools handler (lines 286-291): both
methods, logging with the MCP Context prefix. -/
def poolsContext : MockContext :=
  { info := some (fun m => LogEntry.info ("MCP Context: " ++ m)),
    error := some (fun m => LogEntry.error ("MCP Context: " ++ m)) }

/-- MockContext of the /pools/stream generator (lines 325-330): both
methods, logging with the MCP Context prefix. -/
def streamContext : MockContext :=
  { info := some (fun m => LogEntry.info ("MCP Context: " ++ m)),
    error := some (fun m => LogEntry.error ("MCP Context: " ++ m)) }

/-- MockContext of the background refresh task (lines 398-400): the
class defines only info; no error method is declared. -/
def refreshContext : MockContext :=
  { info := some (fun m => LogEntry.info ("Background refresh: " ++ m)),
    error := none }

/-- The four collaborator call sites of http_server.py and the context
each one instantiates. -/
def providerCallContexts : List MockContext :=
  [mcpToolContext, poolsContext, streamContext, refreshContext]

/-- The five JSON-RPC method names the elif chain of mcp_endpoint
recognizes. -/
def knownMethodNames : List String :=
  ["initialize", "tools/list", "tools/call", "prompts/list", "prompts/get"]

/-- The response is an RPC error with code -1 whose message contains the
given name. -/
def isErrNaming (resp : RPCResponse) (name : String) : Prop :=
  ∃ pre suf, resp.outcome = RPCOutcome.rpcError (-1) (pre ++ name ++ suf)

/-!
Theorems.
-/

/-- Helper: both arms of the try/except envelope copy request.get("id")
into the response. -/
theorem mcp_endpoint_id (prov : Providers) (request : List (String × JVal)) :
    (mcp_endpoint prov request).id = dictGet request "id" := by
  unfold mcp_endpoint
  split <;> rfl

/-- Helper: a raising dispatch yields the error envelope with code -1
and str(exception) as the message. -/
theorem mcp_endpoint_outcome_error (prov : Providers)
    (request : List (String × JVal)) (e : String)
    (h : mcp_dispatch prov request = Except.error e) :
    (mcp_endpoint prov request).outcome = RPCOutcome.rpcError (-1) e := by
  unfold mcp_endpoint
  rw [h]

/-- Claim C1: for every JSON-RPC request dict handled by POST /, on
every code path — success or failure, supported or unsupported method —
the response id equals the incoming request id verbatim, including when
the id is null or absent (both read back as null). -/
theorem mcp_id_echo (prov : Providers) (request : List (String × JVal)) :
    (mcp_endpoint prov request).id = dictGet request "id" :=
  mcp_endpoint_id prov request

/-- Claim C4: when the provider fetch raises, the SSE stream is exactly
one fetching event followed by one terminal error event carrying the
failure message, with no data events and no completed event. -/
theorem stream_failure_events (e : String) :
    generate_stream (Except.error e) =
      [SSEEvent.fetching "Fetching yield pools...", SSEEvent.error e] ∧
    (∀ i t p, SSEEvent.data i t p ∉ generate_stream (Except.error e)) ∧
    (∀ t, SSEEvent.completed t ∉ generate_stream (Except.error e)) := by
  refine ⟨rfl, ?_, ?_⟩ <;> intros <;> simp [generate_stream]

/-- Claim C5: the GET variants of /pools and /analyze build the same
request model from the query parameters and delegate to the POST
handlers, so with the collaborators behaving as functions of the filter
the response bodies coincide. -/
theorem rest_get_post_equiv (prov : Providers) (chain project : Option String) :
    get_pools_get prov chain project =
      get_pools prov { chain := chain, project := project } ∧
    get_analysis_get prov chain project =
      get_analysis prov { chain := chain, project := project } :=
  ⟨rfl, rfl⟩

/-- Claim C6: POST /refresh always answers with the refresh_started
acknowledgement body, whatever the detached fetch later does; the
response component of refresh_data does not depend on the provider at
all, while the task outcome is only logged. -/
theorem refresh_ack_constant (prov : Providers) :
    (refresh_data prov).1 =
      JVal.obj
        [("status", JVal.str "refresh_started"),
         ("message", JVal.str "Background refresh initiated")] ∧
    (∀ prov2 : Providers, (refresh_data prov).1 = (refresh_data prov2).1) :=
  ⟨rfl, fun _ => rfl⟩

/-- Claim C7: within one process lifetime the /health uptime is
non-decreasing: a call at a later wall-clock instant reports an uptime
at least that of an earlier call, the startup timestamp being fixed. -/
theorem health_uptime_monotone (s t1 t2 : Rat) (h : t1 ≤ t2) :
    (health_check s t1).uptime ≤ (health_check s t2).uptime := by
  simpa [health_check] using sub_le_sub_right h s

/-- Witness for health_uptime_monotone at startup 0 and instants 1, 2. -/
theorem health_uptime_monotone_witness :
    (1 : Rat) ≤ 2 ∧ (health_check 0 1).uptime ≤ (health_check 0 2).uptime :=
  ⟨by norm_num, health_uptime_monotone 0 1 2 (by norm_num)⟩

/-- Claim C8, counterexample: it is not the case that every collaborator
call site instantiates a context providing both an info and an error
method — the background refresh task's context (http_server.py lines
398-400) defines no error method. -/
theorem context_error_missing_cex :
    ¬ ∀ c ∈ providerCallContexts, c.info.isSome = true ∧ c.error.isSome = true := by
  intro h
  have hc := (h refreshContext (by simp [providerCallContexts])).2
  simp [refreshContext] at hc

/-- Claim C8, amended: the MCP tools/call, POST /pools and /pools/stream
call sites each instantiate a context with both info and error methods;
the background refresh task's context provides info only. -/
theorem context_methods_by_site :
    (mcpToolContext.info.isSome = true ∧ mcpToolContext.error.isSome = true) ∧
    (poolsContext.info.isSome = true ∧ poolsContext.error.isSome = true) ∧
    (streamContext.info.isSome = true ∧ streamContext.error.isSome = true) ∧
    (refreshContext.info.isSome = true ∧ refreshContext.error = none) :=
  ⟨⟨rfl, rfl⟩, ⟨rfl, rfl⟩, ⟨rfl, rfl⟩, ⟨rfl, rfl⟩⟩

/-- Helper: the enumerate loop starting at offset i produces the data
events indexed i, i+1, ... over the pools in their original order. -/
theorem dataEvents_eq (t : Nat) :
    ∀ (i : Nat) (ps : List JVal),
      dataEvents t i ps =
        (List.range ps.length).map
          (fun j => SSEEvent.data (i + j) t (ps.getD j JVal.null))
  | _, [] => by simp [dataEvents]
  | i, p :: ps => by
      rw [dataEvents, dataEvents_eq t (i + 1) ps, List.length_cons,
          List.range_succ_eq_map, List.map_cons, List.map_map]
      refine congrArg₂ _ (by simp) ?_
      congr 1
      funext j
      simp only [Function.comp, List.getD_cons_succ]
      congr 1
      omega

/-- Claim C3: a successful fetch of N pools streams exactly one fetching
event, then one data event per pool in the provider's original order
with index 0..N-1 and total constantly N, then one completed event with
total N, and no error event. -/
theorem stream_success_events (ps : List JVal) :
    generate_stream (Except.ok ps) =
      SSEEvent.fetching "Fetching yield pools..." ::
        ((List.range ps.length).map
           (fun j => SSEEvent.data j ps.length (ps.getD j JVal.null)) ++
         [SSEEvent.completed ps.length]) ∧
    (∀ m, SSEEvent.error m ∉ generate_stream (Except.ok ps)) := by
  constructor
  · simp [generate_stream, dataEvents_eq]
  · intro m
    simp [generate_stream, dataEvents_eq]

/-- Helper: an unrecognized method name falls through the elif chain to
the final else, raising ValueError with the stringified method. -/
theorem mcp_dispatch_unknown_method (prov : Providers)
    (request : List (String × JVal))
    (h : ∀ s : String, dictGet request "method" = JVal.str s → s ∉ knownMethodNames) :
    mcp_dispatch prov request =
      Except.error ("Unknown method: " ++ (dictGet request "method").pyStr) := by
  unfold mcp_dispatch
  cases hm : dictGet request "method" with
  | str s =>
      have hs := h s hm
      simp only [knownMethodNames, List.mem_cons, List.not_mem_nil, or_false,
        not_or] at hs
      obtain ⟨h1, h2, h3, h4, h5⟩ := hs
      simp [h1, h2, h3, h4, h5, JVal.pyStr]
  | null => rfl
  | bool b => rfl
  | num q => rfl
  | arr xs => rfl
  | obj gs => rfl

/-- Helper: a tools/call with a tool name other than get_yield_pools
raises ValueError naming the stringified tool. -/
theorem mcp_dispatch_unknown_tool (prov : Providers)
    (request fs : List (String × JVal))
    (hm : dictGet request "method" = JVal.str "tools/call")
    (hp : dictGetD request "params" (JVal.obj []) = JVal.obj fs)
    (hn : dictGet fs "name" ≠ JVal.str "get_yield_pools") :
    mcp_dispatch prov request =
      Except.error ("Unknown tool: " ++ (dictGet fs "name").pyStr) := by
  unfold mcp_dispatch
  rw [hm, hp]
  simp only [dictGet] at hn ⊢
  cases hname : dictGetD fs "name" JVal.null with
  | str t =>
      rw [hname] at hn
      have ht : t ≠ "get_yield_pools" := fun hEq => hn (by rw [hEq])
      simp [JVal.pyGet, JVal.pyGetD, Bind.bind, Except.bind, hname, ht, JVal.pyStr]
  | null => simp [JVal.pyGet, JVal.pyGetD, Bind.bind, Except.bind, hname, JVal.pyStr]
  | bool b => simp [JVal.pyGet, JVal.pyGetD, Bind.bind, Except.bind, hname, JVal.pyStr]
  | num q => simp [JVal.pyGet, JVal.pyGetD, Bind.bind, Except.bind, hname, JVal.pyStr]
  | arr xs => simp [JVal.pyGet, JVal.pyGetD, Bind.bind, Except.bind, hname, JVal.pyStr]
  | obj gs => simp [JVal.pyGet, JVal.pyGetD, Bind.bind, Except.bind, hname, JVal.pyStr]

/-- Helper: a prompts/get with a prompt name other than analyze_yields
raises ValueError naming the stringified prompt. -/
theorem mcp_dispatch_unknown_prompt (prov : Providers)
    (request fs : List (String × JVal))
    (hm : dictGet request "method" = JVal.str "prompts/get")
    (hp : dictGetD request "params" (JVal.obj []) = JVal.obj fs)
    (hn : dictGet fs "name" ≠ JVal.str "analyze_yields") :
    mcp_dispatch prov request =
      Except.error ("Unknown prompt: " ++ (dictGet fs "name").pyStr) := by
  unfold mcp_dispatch
  rw [hm, hp]
  simp only [dictGet] at hn ⊢
  cases hname : dictGetD fs "name" JVal.null with
  | str t =>
      rw [hname] at hn
      have ht : t ≠ "analyze_yields" := fun hEq => hn (by rw [hEq])
      simp [JVal.pyGet, JVal.pyGetD, Bind.bind, Except.bind, hname, ht, JVal.pyStr]
  | null => simp [JVal.pyGet, JVal.pyGetD, Bind.bind, Except.bind, hname, JVal.pyStr]
  | bool b => simp [JVal.pyGet, JVal.pyGetD, Bind.bind, Except.bind, hname, JVal.pyStr]
  | num q => simp [JVal.pyGet, JVal.pyGetD, Bind.bind, Except.bind, hname, JVal.pyStr]
  | arr xs => simp [JVal.pyGet, JVal.pyGetD, Bind.bind, Except.bind, hname, JVal.pyStr]
  | obj gs => simp [JVal.pyGet, JVal.pyGetD, Bind.bind, Except.bind, hname, JVal.pyStr]

/-- Claim C2: a request whose method is outside the five recognized
ones, or whose tools/call tool name is not get_yield_pools, or whose
prompts/get prompt name is not analyze_yields, gets an RPC error with
code -1 whose message contains the stringified unrecognized name, with
the request id preserved. -/
theorem mcp_validation_error_naming (prov : Providers)
    (request : List (String × JVal)) :
    ((∀ s : String, dictGet request "method" = JVal.str s → s ∉ knownMethodNames) →
       isErrNaming (mcp_endpoint prov request) (dictGet request "method").pyStr ∧
       (mcp_endpoint prov request).id = dictGet request "id") ∧
    (∀ fs : List (String × JVal),
       dictGet request "method" = JVal.str "tools/call" →
       dictGetD request "params" (JVal.obj []) = JVal.obj fs →
       dictGet fs "name" ≠ JVal.str "get_yield_pools" →
       isErrNaming (mcp_endpoint prov request) (dictGet fs "name").pyStr ∧
       (mcp_endpoint prov request).id = dictGet request "id") ∧
    (∀ fs : List (String × JVal),
       dictGet request "method" = JVal.str "prompts/get" →
       dictGetD request "params" (JVal.obj []) = JVal.obj fs →
       dictGet fs "name" ≠ JVal.str "analyze_yields" →
       isErrNaming (mcp_endpoint prov request) (dictGet fs "name").pyStr ∧
       (mcp_endpoint prov request).id = dictGet request "id") := by
  refine ⟨fun h => ⟨⟨"Unknown method: ", "", ?_⟩, mcp_endpoint_id prov request⟩,
          fun fs hm hp hn => ⟨⟨"Unknown tool: ", "", ?_⟩, mcp_endpoint_id prov request⟩,
          fun fs hm hp hn => ⟨⟨"Unknown prompt: ", "", ?_⟩, mcp_endpoint_id prov request⟩⟩
  · rw [mcp_endpoint_outcome_error prov request _
        (mcp_dispatch_unknown_method prov request h), String.append_empty]
  · rw [mcp_endpoint_outcome_error prov request _
        (mcp_dispatch_unknown_tool prov request fs hm hp hn), String.append_empty]
  · rw [mcp_endpoint_outcome_error prov request _
        (mcp_dispatch_unknown_prompt prov request fs hm hp hn), String.append_empty]

/-- Witness for mcp_validation_error_naming: the spec's example request
with tool name bogus and id 2 gets error code -1, message containing
bogus, and id 2 echoed. -/
theorem mcp_validation_error_naming_witness :
    isErrNaming
      (mcp_endpoint
        { get_yield_pools := fun _ _ => Except.ok [],
          analyze_yields := fun _ _ => Except.ok "" }
        [("jsonrpc", JVal.str "2.0"), ("method", JVal.str "tools/call"),
         ("params", JVal.obj [("name", JVal.str "bogus")]), ("id", JVal.num 2)])
      "bogus" ∧
    (mcp_endpoint
        { get_yield_pools := fun _ _ => Except.ok [],
          analyze_yields := fun _ _ => Except.ok "" }
        [("jsonrpc", JVal.str "2.0"), ("method", JVal.str "tools/call"),
         ("params", JVal.obj [("name", JVal.str "bogus")]), ("id", JVal.num 2)]).id =
      JVal.num 2 := by
  have h := (mcp_validation_error_naming
      { get_yield_pools := fun _ _ => Except.ok [],
        analyze_yields := fun _ _ => Except.ok "" }
      [("jsonrpc", JVal.str "2.0"), ("method", JVal.str "tools/call"),
       ("params", JVal.obj [("name", JVal.str "bogus")]), ("id", JVal.num 2)]).2.1
      [("name", JVal.str "bogus")] rfl rfl (by simp [dictGet, dictGetD])
  exact ⟨h.1, by rw [h.2]; rfl⟩

/-- Claim C10: a request dict with no method key still gets a
well-formed error response — request.get("method") returns None rather
than raising, the elif chain falls through to its else, and the response
carries code -1, the message "Unknown method: None", and the echoed id,
so the unbound-name ambiguity is not reachable. -/
theorem mcp_missing_method_response (prov : Providers)
    (request : List (String × JVal))
    (h : request.lookup "method" = none) :
    (mcp_endpoint prov request).outcome =
      RPCOutcome.rpcError (-1) "Unknown method: None" ∧
    (mcp_endpoint prov request).id = dictGet request "id" := by
  have hm : dictGet request "method" = JVal.null := by
    simp [dictGet, dictGetD, h]
  refine ⟨?_, mcp_endpoint_id prov request⟩
  have hd : mcp_dispatch prov request = Except.error "Unknown method: None" := by
    unfold mcp_dispatch
    rw [hm]
    rfl
  rw [mcp_endpoint_outcome_error prov request _ hd]

/-- Witness for mcp_missing_method_response: a request holding only an
id gets the Unknown method None error with its id echoed. -/
theorem mcp_missing_method_response_witness :
    (mcp_endpoint
        { get_yield_pools := fun _ _ => Except.ok [],
          analyze_yields := fun _ _ => Except.ok "" }
        [("id", JVal.num 7)]).outcome =
      RPCOutcome.rpcError (-1) "Unknown method: None" ∧
    (mcp_endpoint
        { get_yield_pools := fun _ _ => Except.ok [],
          analyze_yields := fun _ _ => Except.ok "" }
        [("id", JVal.num 7)]).id = JVal.num 7 := by
  have h := mcp_missing_method_response
      { get_yield_pools := fun _ _ => Except.ok [],
        analyze_yields := fun _ _ => Except.ok "" }
      [("id", JVal.num 7)] rfl
  exact ⟨h.1, by rw [h.2]; rfl⟩

/-- Helper: pydantic validation of the serialization of a YieldPool
record yields the record back. -/
theorem validate_toJVal (r : YieldPoolRecord) :
    validateYieldPool r.toJVal = Except.ok r := rfl

/-- Helper: the validation comprehension over a list of serialized
records succeeds with the records, in order. -/
theorem validatePools_toJVal (rs : List YieldPoolRecord) :
    validatePools (rs.map YieldPoolRecord.toJVal) = Except.ok rs := by
  induction rs with
  | nil => rfl
  | cons r rs ih =>
      simp [validatePools, validate_toJVal, ih, Bind.bind, Except.bind,
        Pure.pure, Except.pure]

/-- Claim C9: when the provider (resp. generator) raises, /pools
(resp. /analyze) returns HTTP 500 with the raised error's message as
detail; when the provider succeeds with a list of YieldPool records,
/pools returns 200 with that list in the provider's order. -/
theorem rest_error_500_success_200 (prov : Providers) :
    (∀ (req : YieldPoolRequest) (e : String),
        prov.get_yield_pools (optToJVal req.chain) (optToJVal req.project) =
          Except.error e →
        get_pools prov req = RestResponse.httpError 500 e) ∧
    (∀ (req : AnalysisRequest) (e : String),
        prov.analyze_yields (optToJVal req.chain) (optToJVal req.project) =
          Except.error e →
        get_analysis prov req = RestResponse.httpError 500 e) ∧
    (∀ (req : YieldPoolRequest) (rs : List YieldPoolRecord),
        prov.get_yield_pools (optToJVal req.chain) (optToJVal req.project) =
          Except.ok (rs.map YieldPoolRecord.toJVal) →
        get_pools prov req =
          RestResponse.ok (JVal.arr (rs.map YieldPoolRecord.toJVal))) := by
  refine ⟨?_, ?_, ?_⟩
  · intro req e h
    simp [get_pools, get_pools_try, h, Bind.bind, Except.bind]
  · intro req e h
    simp [get_analysis, h]
  · intro req rs h
    simp [get_pools, get_pools_try, h, Bind.bind, Except.bind, validatePools_toJVal]

/-- Witness for rest_error_500_success_200: a provider raising boom and
a generator raising bad map to 500 responses carrying those messages,
and a provider returning one serialized record yields 200 with exactly
that record. -/
theorem rest_error_500_success_200_witness :
    get_pools
      { get_yield_pools := fun _ _ => Except.error "boom",
        analyze_yields := fun _ _ => Except.error "bad" }
      { chain := none, project := none } = RestResponse.httpError 500 "boom" ∧
    get_analysis
      { get_yield_pools := fun _ _ => Except.error "boom",
        analyze_yields := fun _ _ => Except.error "bad" }
      { chain := none, project := none } = RestResponse.httpError 500 "bad" ∧
    get_pools
      { get_yield_pools := fun _ _ =>
          Except.ok [YieldPoolRecord.toJVal ⟨"Ethereum", "STETH", "lido", 1, 2, 3, []⟩],
        analyze_yields := fun _ _ => Except.ok "p" }
      { chain := none, project := none } =
      RestResponse.ok
        (JVal.arr [YieldPoolRecord.toJVal ⟨"Ethereum", "STETH", "lido", 1, 2, 3, []⟩]) := by
  refine ⟨(rest_error_500_success_200 _).1 ⟨none, none⟩ "boom" rfl,
          (rest_error_500_success_200 _).2.1 ⟨none, none⟩ "bad" rfl, ?_⟩
  exact (rest_error_500_success_200 _).2.2 ⟨none, none⟩
    [⟨"Ethereum", "STETH", "lido", 1, 2, 3, []⟩] rfl
